import Mathlib

/-! # Blogicum: verification of blog/views.py and blog/forms.py

A shallow embedding of the Django views in blog/views.py and the forms in
blog/forms.py.  Django model rows become Lean structures; querysets become
lists of rows; timezone.now() becomes an explicit parameter now : Int; a view
that may raise Http404 returns Except Unit; a view that mutates the database
returns the response together with the new list of rows.  Pagination and the
comment_count annotation only affect display, not which rows a query returns,
so they are omitted. -/

namespace Blogicum

/-- A blog category.  blog/models.py is not under src/; the views use exactly
the fields slug and is_published and the reverse relation posts, so those are
what the embedding carries. -/
structure Category where
  slug : String
  is_published : Bool
deriving DecidableEq, Repr

/-- A blog post.  Modelled from the spec: the glossary says a Post is a
user-authored entry with title, text, publish date/time, category, and
optional location; the code additionally reads the fields author,
is_published and created_at (forms.py line 11, views.py passim).  The
foreign key to Category is embedded as the category row itself; author and
location are user / location primary keys. -/
structure Post where
  id : Nat
  title : String
  text : String
  author : Nat
  category : Category
  location : Option Nat
  pub_date : Int
  created_at : Int
  is_published : Bool
deriving DecidableEq, Repr

/-- A comment row: text attached to a post, with author and creation time
(fields used in views.py lines 60, 136-186 and admin.py). -/
structure Comment where
  id : Nat
  text : String
  author : Nat
  post : Nat
  created_at : Int
deriving DecidableEq, Repr

/-- The request.user seen by a view: either an authenticated user with a
primary key and a superuser flag, or AnonymousUser (is_authenticated false;
Django fixes AnonymousUser.is_superuser to false). -/
structure Requester where
  is_authenticated : Bool
  userId : Nat
  is_superuser : Bool
deriving DecidableEq, Repr

/-- Django comparison post.author == request.user: an AnonymousUser never
equals a User row, so equality holds only for an authenticated requester
whose primary key is the author. -/
def Requester.isUser (r : Requester) (author : Nat) : Bool :=
  r.is_authenticated && author == r.userId

/-- request.user.is_superuser: false for AnonymousUser. -/
def Requester.isSuper (r : Requester) : Bool :=
  r.is_authenticated && r.is_superuser

/-- A registered user row, as looked up by profile_view via username. -/
structure User where
  pk : Nat
  username : String
deriving DecidableEq, Repr

/-- The sort key order_by(-pub_date, title) used by the post list queries:
newest first, ties broken by title ascending. -/
def postLe (p q : Post) : Bool :=
  decide (q.pub_date < p.pub_date) ||
    (p.pub_date == q.pub_date && decide (p.title ≤ q.title))

/-- The sort key order_by(created_at) used for comments: earliest first. -/
def commentLe (a b : Comment) : Bool :=
  decide (a.created_at ≤ b.created_at)

/-- The sort key order_by(-pub_date) used by profile_view. -/
def profileLe (p q : Post) : Bool :=
  decide (q.pub_date ≤ p.pub_date)

namespace PostListView

/-- PostListView.get_queryset (views.py 22-28): the public index query —
filter(is_published=True, category__is_published=True, pub_date__lt=now)
ordered by (-pub_date, title). -/
def get_queryset (posts : List Post) (now : Int) : List Post :=
  (posts.filter (fun p =>
      p.is_published && p.category.is_published &&
        decide (p.pub_date < now))).mergeSort postLe

end PostListView

namespace PostDetailView

/-- PostDetailView.get_context_data (views.py 35-66) together with the
DetailView object lookup (get_object_or_404 on the pk).  Each of the three
guards raises Http404 when its condition holds and the requester is not the
authenticated author; otherwise the context carries the post and its
comments, filter(post=post).order_by(created_at). -/
def get_context_data (posts : List Post) (comments : List Comment) (pk : Nat)
    (r : Requester) (now : Int) : Except Unit (Post × List Comment) :=
  match posts.find? (fun p => p.id == pk) with
  | none => .error ()
  | some post =>
    if !post.is_published &&
        (!r.is_authenticated || !(r.isUser post.author)) then
      .error ()
    else if !post.category.is_published &&
        (!r.is_authenticated || !(r.isUser post.author)) then
      .error ()
    else if decide (post.pub_date > now) &&
        (!r.is_authenticated || !(r.isUser post.author)) then
      .error ()
    else
      .ok (post,
        (comments.filter (fun c => c.post == post.id)).mergeSort commentLe)

end PostDetailView

/-- get_object_or_404(Category, slug=category_slug). -/
def findCategory (cats : List Category) (slug : String) : Option Category :=
  cats.find? (fun c => c.slug == slug)

/-- The queryset written identically in both category pages (views.py 72-76
and 94-100): category.posts.filter(category__slug=slug, is_published=True,
category__is_published=True, pub_date__lt=now).order_by(-pub_date, title).
The reverse relation category.posts contributes the p.category == cat
conjunct. -/
def categoryQueryset (cat : Category) (slug : String) (posts : List Post)
    (now : Int) : List Post :=
  (posts.filter (fun p =>
      p.category == cat && p.category.slug == slug &&
        p.is_published && p.category.is_published &&
        decide (p.pub_date < now))).mergeSort postLe

/-- category_posts (views.py 69-81), the function-based category page:
get_object_or_404 on the category, then get_list_or_404 on the filtered
list — an empty list raises Http404. -/
def category_posts (cats : List Category) (posts : List Post) (slug : String)
    (now : Int) : Except Unit (List Post) :=
  match findCategory cats slug with
  | none => .error ()
  | some cat =>
    let post_list := categoryQueryset cat slug posts now
    if post_list.isEmpty then .error () else .ok post_list

namespace CategoryPostsListView

/-- CategoryPostsListView (views.py 84-118), the class-based category page:
dispatch raises Http404 when the category is missing or unpublished,
otherwise the page renders get_queryset, an empty result included. -/
def dispatch (cats : List Category) (posts : List Post) (slug : String)
    (now : Int) : Except Unit (List Post) :=
  match findCategory cats slug with
  | none => .error ()
  | some cat =>
    if !cat.is_published then .error ()
    else .ok (categoryQueryset cat slug posts now)

end CategoryPostsListView

/-- profile_view (views.py 121-133): get_object_or_404 on the username, then
all posts with filter(author=profile.pk) ordered by (-pub_date) — no
publication or date filter at all. -/
def profile_view (users : List User) (posts : List Post) (username : String)
    : Except Unit (List Post) :=
  match users.find? (fun u => u.username == username) with
  | none => .error ()
  | some profile =>
    .ok ((posts.filter (fun p => p.author == profile.pk)).mergeSort profileLe)

/-- The response a view produces besides its effect on the database. -/
inductive Response where
  | page
  | http404
  | redirectDetail (pk : Nat)
  | redirectLogin
deriving DecidableEq, Repr

/-- The data a bound PostForm carries.  Modelled from the spec: the Post
model fields are title, text, publish date/time, category, optional location
(glossary) plus author, is_published, created_at (read by the code); PostForm
(forms.py 5-11) excludes created_at, author and is_published, so exactly the
five remaining fields come from form input. -/
structure PostFormData where
  title : String
  text : String
  pub_date : Int
  category : Category
  location : Option Nat
deriving DecidableEq, Repr

/-- Saving a bound PostForm over an existing instance: the five included
fields are overwritten from the form, the three excluded fields are kept. -/
def applyPostForm (d : PostFormData) (p : Post) : Post :=
  { p with title := d.title, text := d.text, pub_date := d.pub_date,
           category := d.category, location := d.location }

namespace PostCreateView

/-- PostCreateView (views.py 218-229): LoginRequiredMixin redirects an
unauthenticated requester to the login page before any save; form_valid sets
form.instance.author = request.user; the excluded fields is_published and
created_at are filled by the model, not the form (defaultPublished stands
for the model default of is_published, createdAt for the auto timestamp;
blog/models.py is not under src/). -/
def handle (posts : List Post) (r : Requester) (d : PostFormData)
    (newId : Nat) (createdAt : Int) (defaultPublished : Bool)
    : Response × List Post :=
  if !r.is_authenticated then (.redirectLogin, posts)
  else
    let newPost : Post :=
      { id := newId, title := d.title, text := d.text, author := r.userId,
        category := d.category, location := d.location,
        pub_date := d.pub_date, created_at := createdAt,
        is_published := defaultPublished }
    (.page, posts ++ [newPost])

end PostCreateView

namespace PostUpdateView

/-- PostUpdateView.dispatch (views.py 237-241) and the subsequent form save.
The overriding dispatch runs before the LoginRequiredMixin check (Python
MRO): get_object_or_404 on the pk, then a non-author — AnonymousUser
included — is redirected to the post detail page with the database
untouched; only the authenticated author reaches the form. -/
def dispatch (posts : List Post) (pk : Nat) (r : Requester) (d : PostFormData)
    : Response × List Post :=
  match posts.find? (fun p => p.id == pk) with
  | none => (.http404, posts)
  | some inst =>
    if !(r.isUser inst.author) then (.redirectDetail pk, posts)
    else if !r.is_authenticated then (.redirectLogin, posts)
    else
      (.page, posts.map (fun p => if p.id == pk then applyPostForm d p else p))

end PostUpdateView

namespace PostDeleteView

/-- PostDeleteView.dispatch (views.py 258-262): same guard as
PostUpdateView.dispatch; only the authenticated author reaches the delete. -/
def dispatch (posts : List Post) (pk : Nat) (r : Requester)
    : Response × List Post :=
  match posts.find? (fun p => p.id == pk) with
  | none => (.http404, posts)
  | some inst =>
    if !(r.isUser inst.author) then (.redirectDetail pk, posts)
    else if !r.is_authenticated then (.redirectLogin, posts)
    else (.page, posts.filter (fun p => !(p.id == pk)))

end PostDeleteView

namespace CommentCreateView

/-- CommentCreateView (views.py 136-149): LoginRequiredMixin redirects an
unauthenticated requester to the login page before any save; form_valid
looks up the post by pk (404 when absent) and sets author = request.user
and post = that post. -/
def handle (posts : List Post) (comments : List Comment) (r : Requester)
    (pk : Nat) (text : String) (newId : Nat) (createdAt : Int)
    : Response × List Comment :=
  if !r.is_authenticated then (.redirectLogin, comments)
  else
    match posts.find? (fun p => p.id == pk) with
    | none => (.http404, comments)
    | some post =>
      let newComment : Comment :=
        { id := newId, text := text, author := r.userId,
          post := post.id, created_at := createdAt }
      (.page, comments ++ [newComment])

end CommentCreateView

namespace CommentDeleteView

/-- CommentDeleteView.dispatch (views.py 157-163) and the delete it guards:
get_object on comm_pk (404 when absent); Http404 unless the requester is the
comment author or a superuser; the overriding dispatch runs before the
LoginRequiredMixin check. -/
def dispatch (comments : List Comment) (pk : Nat) (r : Requester)
    : Response × List Comment :=
  match comments.find? (fun c => c.id == pk) with
  | none => (.http404, comments)
  | some c =>
    if !(r.isUser c.author) && !r.isSuper then (.http404, comments)
    else if !r.is_authenticated then (.redirectLogin, comments)
    else (.page, comments.filter (fun x => !(x.id == pk)))

end CommentDeleteView

namespace CommentUpdateView

/-- CommentUpdateView.dispatch (views.py 176-182) and the edit it guards:
get_object on comm_pk (404 when absent); Http404 unless the requester is the
comment author — a superuser gets no exception here; CommentForm carries the
single field text. -/
def dispatch (comments : List Comment) (pk : Nat) (r : Requester)
    (newText : String) : Response × List Comment :=
  match comments.find? (fun c => c.id == pk) with
  | none => (.http404, comments)
  | some c =>
    if !(r.isUser c.author) then (.http404, comments)
    else if !r.is_authenticated then (.redirectLogin, comments)
    else
      (.page, comments.map (fun x =>
        if x.id == pk then { x with text := newText } else x))

end CommentUpdateView

/-! ## Helper lemmas -/

/-- Membership characterization of the public index queryset. -/
theorem mem_index_iff (posts : List Post) (now : Int) (p : Post) :
    p ∈ PostListView.get_queryset posts now ↔
      p ∈ posts ∧ p.is_published = true ∧ p.category.is_published = true ∧
        p.pub_date < now := by
  simp [PostListView.get_queryset, List.mem_filter, and_assoc]

/-- Membership characterization of the shared category queryset. -/
theorem mem_categoryQueryset_iff (cat : Category) (slug : String)
    (posts : List Post) (now : Int) (p : Post) :
    p ∈ categoryQueryset cat slug posts now ↔
      p ∈ posts ∧ p.category = cat ∧ p.category.slug = slug ∧
        p.is_published = true ∧ p.category.is_published = true ∧
        p.pub_date < now := by
  simp [categoryQueryset, List.mem_filter, and_assoc]

/-- In each detail-view guard, not-authenticated-or-not-author collapses to
not-author, since an unauthenticated requester is never the author. -/
theorem not_auth_or_not_isUser (r : Requester) (a : Nat) :
    (!r.is_authenticated || !(r.isUser a)) = !(r.isUser a) := by
  cases r with
  | mk auth uid sup => cases auth <;> simp [Requester.isUser]

/-- On a found post, the detail view raises Http404 exactly when the
requester is not the authenticated author and the post fails one of the
three publication conditions. -/
theorem detail_error_iff (posts : List Post) (comments : List Comment)
    (pk : Nat) (p : Post) (r : Requester) (now : Int)
    (hfind : posts.find? (fun q => q.id == pk) = some p) :
    PostDetailView.get_context_data posts comments pk r now = .error () ↔
      r.isUser p.author = false ∧
        (p.is_published = false ∨ p.category.is_published = false ∨
          p.pub_date > now) := by
  unfold PostDetailView.get_context_data
  rw [hfind]
  simp only [not_auth_or_not_isUser]
  cases hu : r.isUser p.author <;>
    cases hp : p.is_published <;>
      cases hc : p.category.is_published <;>
        by_cases hd : p.pub_date > now <;>
          simp [hu, hp, hc, hd]

/-- A hidden post (unpublished, or unpublished category, or future-dated)
never appears in the shared category queryset. -/
theorem not_mem_categoryQueryset (cat : Category) (slug : String)
    (posts : List Post) (now : Int) (p : Post)
    (hbad : p.is_published = false ∨ p.category.is_published = false ∨
      p.pub_date > now) :
    p ∉ categoryQueryset cat slug posts now := by
  intro hmem
  rw [mem_categoryQueryset_iff] at hmem
  rcases hbad with h | h | h
  all_goals simp_all
  all_goals try omega

/-! ## Fixtures for counterexamples and witnesses -/

def catNews : Category := { slug := "news", is_published := true }

def bob : User := { pk := 1, username := "bob" }

/-- An unpublished draft authored by bob. -/
def draftPost : Post :=
  { id := 10, title := "draft", text := "t", author := 1, category := catNews,
    location := none, pub_date := 0, created_at := 0, is_published := false }

/-- A published post whose publish time equals the clock value 5. -/
def boundaryPost : Post :=
  { id := 20, title := "b", text := "t", author := 2, category := catNews,
    location := none, pub_date := 5, created_at := 0, is_published := true }

/-- An unauthenticated requester (AnonymousUser). -/
def anon : Requester :=
  { is_authenticated := false, userId := 0, is_superuser := false }

/-! ## Claims -/

/-- C1: counterexample.  draftPost is not marked published and the anonymous
requester is not its author, yet profile_view lists it on the profile page
of its author bob: the claim fails on the profile page, which applies no
visibility filter at all. -/
theorem C1_counterexample_profile_page_leaks_draft :
    draftPost.is_published = false ∧
    anon.isUser draftPost.author = false ∧
    profile_view [bob] [draftPost] "bob" = .ok [draftPost] := by
  refine ⟨rfl, by decide, ?_⟩
  simp [profile_view, bob, draftPost]

/-- C1 (amended): for every post that is unpublished, or in an unpublished
category, or future-dated, and every requester who is not the post's author,
the post is not visible on the index list, on either category page, or on
the post detail page (which raises Http404).  The profile page is excluded:
it lists every post of the profiled user to every requester. -/
theorem C1_hidden_post_not_publicly_visible (posts : List Post)
    (cats : List Category) (comments : List Comment) (p : Post)
    (r : Requester) (now : Int)
    (hbad : p.is_published = false ∨ p.category.is_published = false ∨
      p.pub_date > now)
    (hna : r.isUser p.author = false) :
    p ∉ PostListView.get_queryset posts now ∧
    (∀ slug res, category_posts cats posts slug now = .ok res → p ∉ res) ∧
    (∀ slug res, CategoryPostsListView.dispatch cats posts slug now = .ok res →
      p ∉ res) ∧
    (∀ pk, posts.find? (fun q => q.id == pk) = some p →
      PostDetailView.get_context_data posts comments pk r now = .error ()) := by
  refine ⟨?_, ?_, ?_, ?_⟩
  · intro hmem
    rw [mem_index_iff] at hmem
    rcases hbad with h | h | h
    all_goals simp_all
    all_goals try omega
  · intro slug res hok hmem
    unfold category_posts at hok
    split at hok
    · cases hok
    · dsimp only at hok
      split at hok
      · cases hok
      · cases hok
        exact not_mem_categoryQueryset _ _ _ _ _ hbad hmem
  · intro slug res hok hmem
    unfold CategoryPostsListView.dispatch at hok
    split at hok
    · cases hok
    · split at hok
      · cases hok
      · cases hok
        exact not_mem_categoryQueryset _ _ _ _ _ hbad hmem
  · intro pk hfind
    rw [detail_error_iff posts comments pk p r now hfind]
    exact ⟨hna, hbad⟩

/-- C1 witness: the amended theorem applied to draftPost with the clock at
5 and an anonymous requester. -/
theorem C1_hidden_post_not_publicly_visible_witness :
    draftPost ∉ PostListView.get_queryset [draftPost] 5 :=
  (C1_hidden_post_not_publicly_visible [draftPost] [catNews] [] draftPost
    anon 5 (Or.inl rfl) (by decide)).1

/-- C2: counterexample.  With the clock at 5, boundaryPost satisfies all
three conditions of the claim — published, category published, publish time
not in the future (it equals the current time) — yet it is absent from the
index query, because the code filters pub_date__lt strictly. -/
theorem C2_counterexample_boundary_post_excluded :
    boundaryPost.is_published = true ∧
    boundaryPost.category.is_published = true ∧
    ¬(boundaryPost.pub_date > (5 : Int)) ∧
    boundaryPost ∉ PostListView.get_queryset [boundaryPost] 5 := by
  refine ⟨rfl, rfl, by decide, ?_⟩
  intro hmem
  rw [mem_index_iff] at hmem
  simp [boundaryPost] at hmem

/-- C2 (amended): the public index query returns exactly the posts whose
is_published flag is true, whose category is published, and whose publish
date/time is strictly before the current time; a post whose publish time
equals the current time is excluded. -/
theorem C2_index_query_exact (posts : List Post) (now : Int) (p : Post) :
    p ∈ PostListView.get_queryset posts now ↔
      p ∈ posts ∧ p.is_published = true ∧ p.category.is_published = true ∧
        p.pub_date < now :=
  mem_index_iff posts now p

/-- C3: on a found post, the detail page raises Http404 exactly when the
requester is not an authenticated user equal to the author and the post is
unpublished, or its category is unpublished, or its publish time is in the
future; consequently the authenticated author always sees their own post. -/
theorem C3_detail_404_iff (posts : List Post) (comments : List Comment)
    (pk : Nat) (p : Post) (r : Requester) (now : Int)
    (hfind : posts.find? (fun q => q.id == pk) = some p) :
    PostDetailView.get_context_data posts comments pk r now = .error () ↔
      ¬(r.is_authenticated = true ∧ r.userId = p.author) ∧
        (p.is_published = false ∨ p.category.is_published = false ∨
          p.pub_date > now) := by
  rw [detail_error_iff posts comments pk p r now hfind]
  constructor
  · rintro ⟨hu, hc⟩
    refine ⟨?_, hc⟩
    rintro ⟨ha, he⟩
    rw [Requester.isUser, ha] at hu
    simp [he] at hu
  · rintro ⟨hu, hc⟩
    refine ⟨?_, hc⟩
    rw [Requester.isUser]
    cases ha : r.is_authenticated
    · rfl
    · simp only [Bool.true_and, beq_eq_false_iff_ne, ne_eq]
      intro he
      exact hu ⟨ha, he.symm⟩

/-- C3 witness: the anonymous requester gets Http404 on the detail page of
the unpublished draftPost. -/
theorem C3_detail_404_iff_witness :
    PostDetailView.get_context_data [draftPost] [] 10 anon 5 = .error () :=
  (C3_detail_404_iff [draftPost] [] 10 draftPost anon 5 (by simp [draftPost])).mpr
    ⟨by simp [anon], Or.inl rfl⟩

/-- C4: counterexample.  With the clock at 5, the anonymous requester is not
the author of boundaryPost, the detail page for boundaryPost renders without
Http404, yet boundaryPost is not in the index query result: the two views
disagree at a publish time equal to the current time. -/
theorem C4_counterexample_views_disagree_at_boundary :
    anon.isUser boundaryPost.author = false ∧
    PostDetailView.get_context_data [boundaryPost] [] 20 anon 5 ≠ .error () ∧
    boundaryPost ∉ PostListView.get_queryset [boundaryPost] 5 := by
  refine ⟨by decide, ?_, ?_⟩
  · rw [ne_eq, detail_error_iff [boundaryPost] [] 20 boundaryPost anon 5
      (by simp [boundaryPost])]
    simp [boundaryPost, catNews, anon, Requester.isUser]
  · intro hmem
    rw [mem_index_iff] at hmem
    simp [boundaryPost] at hmem

/-- C4 (amended): for a post found by the detail page and a requester who is
not its author, index membership always implies that the detail page does
not raise Http404; the converse — hence the equivalence of the two
visibility predicates — holds whenever the post's publish time is not
exactly the current instant.  At pub_date equal to now the detail page
succeeds while the index excludes the post. -/
theorem C4_index_iff_detail_ok (posts : List Post) (comments : List Comment)
    (p : Post) (r : Requester) (now : Int)
    (hfind : posts.find? (fun q => q.id == p.id) = some p)
    (hna : r.isUser p.author = false) :
    (p ∈ PostListView.get_queryset posts now →
      PostDetailView.get_context_data posts comments p.id r now ≠ .error ()) ∧
    (p.pub_date ≠ now →
      (p ∈ PostListView.get_queryset posts now ↔
        PostDetailView.get_context_data posts comments p.id r now ≠
          .error ())) := by
  have herr := detail_error_iff posts comments p.id p r now hfind
  have hmemp : p ∈ posts := List.mem_of_find?_eq_some hfind
  constructor
  · intro hmem
    rw [mem_index_iff] at hmem
    rw [ne_eq, herr]
    rintro ⟨-, hc⟩
    rcases hc with h | h | h
    all_goals simp_all
    all_goals try omega
  · intro hne
    rw [mem_index_iff, ne_eq, herr]
    constructor
    · rintro ⟨-, h1, h2, h3⟩
      rintro ⟨-, hc⟩
      rcases hc with h | h | h
      all_goals simp_all
      all_goals try omega
    · intro hnot
      refine ⟨hmemp, ?_, ?_, ?_⟩
      · by_contra h
        exact hnot ⟨hna, Or.inl (Bool.eq_false_iff.mpr h)⟩
      · by_contra h
        exact hnot ⟨hna, Or.inr (Or.inl (Bool.eq_false_iff.mpr h))⟩
      · rcases lt_trichotomy p.pub_date now with h | h | h
        · exact h
        · exact absurd h hne
        · exact absurd ⟨hna, Or.inr (Or.inr h)⟩ hnot

/-- C4 witness: at clock 5 the equivalence holds for draftPost (whose
publish time 0 differs from 5): it is neither in the index nor visible on
the detail page. -/
theorem C4_index_iff_detail_ok_witness :
    draftPost ∉ PostListView.get_queryset [draftPost] 5 := by
  have h := (C4_index_iff_detail_ok [draftPost] [] draftPost anon 5
      (by simp [draftPost]) (by decide)).2 (by decide)
  intro hmem
  exact (h.mp hmem) (by
    rw [detail_error_iff [draftPost] [] draftPost.id draftPost anon 5
      (by simp [draftPost])]
    exact ⟨by decide, Or.inl rfl⟩)

/-- An authenticated requester with primary key 3, not a superuser. -/
def alice : Requester :=
  { is_authenticated := true, userId := 3, is_superuser := false }

/-- An authenticated superuser with primary key 4. -/
def superSam : Requester :=
  { is_authenticated := true, userId := 4, is_superuser := true }

/-- Concrete bound form data. -/
def sampleForm : PostFormData :=
  { title := "t2", text := "x", pub_date := 1, category := catNews,
    location := none }

/-- A comment by user 3 on post 20. -/
def sampleComment : Comment :=
  { id := 1, text := "hi", author := 3, post := 20, created_at := 2 }

/-- C5: only the author of a post may edit or delete it — an authenticated
requester who is not the author is redirected to the post detail page by
both dispatch methods, and the database is left unchanged. -/
theorem C5_non_author_redirected_unchanged (posts : List Post) (pk : Nat)
    (inst : Post) (r : Requester) (d : PostFormData)
    (hfind : posts.find? (fun p => p.id == pk) = some inst)
    (hauth : r.is_authenticated = true)
    (hne : r.userId ≠ inst.author) :
    PostUpdateView.dispatch posts pk r d = (.redirectDetail pk, posts) ∧
    PostDeleteView.dispatch posts pk r = (.redirectDetail pk, posts) := by
  have hu : r.isUser inst.author = false := by
    simp only [Requester.isUser, hauth, Bool.true_and, beq_eq_false_iff_ne,
      ne_eq]
    exact fun h => hne h.symm
  constructor
  · simp [PostUpdateView.dispatch, hfind, hu]
  · simp [PostDeleteView.dispatch, hfind, hu]

/-- C5 witness: alice (pk 3) is not the author (pk 2) of boundaryPost and is
redirected by both views. -/
theorem C5_non_author_redirected_unchanged_witness :
    PostUpdateView.dispatch [boundaryPost] 20 alice sampleForm =
      (.redirectDetail 20, [boundaryPost]) :=
  (C5_non_author_redirected_unchanged [boundaryPost] 20 boundaryPost alice
    sampleForm (by simp [boundaryPost]) rfl (by decide)).1

/-- C6: on a successfully rendered detail page, the comments shown are
exactly the comments attached to that post, in nondecreasing order of
creation time (earliest first). -/
theorem C6_detail_comments_exact_sorted (posts : List Post)
    (comments : List Comment) (pk : Nat) (r : Requester) (now : Int)
    (p : Post) (cs : List Comment)
    (hok : PostDetailView.get_context_data posts comments pk r now =
      .ok (p, cs)) :
    (∀ c, c ∈ cs ↔ c ∈ comments ∧ c.post = p.id) ∧
    cs.Pairwise (fun a b => a.created_at ≤ b.created_at) := by
  unfold PostDetailView.get_context_data at hok
  split at hok
  · cases hok
  · split_ifs at hok
    rw [Except.ok.injEq, Prod.mk.injEq] at hok
    obtain ⟨hq, hcs⟩ := hok
    subst hq
    subst hcs
    constructor
    · intro c
      simp [List.mem_filter]
    · refine List.Pairwise.imp ?_ (List.sorted_mergeSort ?_ ?_ _)
      · intro a b h
        simpa [commentLe] using h
      · intro a b c hab hbc
        simp only [commentLe, decide_eq_true_eq] at *
        omega
      · intro a b
        simp only [commentLe, Bool.or_eq_true, decide_eq_true_eq]
        omega

/-- C6 witness: the detail page of boundaryPost at clock 6 shows exactly its
single comment. -/
theorem C6_detail_comments_exact_sorted_witness :
    (∀ c, c ∈ [sampleComment] ↔
      c ∈ [sampleComment] ∧ c.post = boundaryPost.id) ∧
    List.Pairwise (fun a b : Comment => a.created_at ≤ b.created_at)
      [sampleComment] :=
  C6_detail_comments_exact_sorted [boundaryPost] [sampleComment] 20 anon 6
    boundaryPost [sampleComment]
    (by simp [PostDetailView.get_context_data, boundaryPost, catNews, anon,
      Requester.isUser, sampleComment])

/-- C7: creating a post or a comment requires authentication — an
unauthenticated requester is redirected to the login page with nothing
created, and every newly created row carries the authenticated requester as
its author. -/
theorem C7_creation_requires_authentication (posts : List Post)
    (comments : List Comment) (r : Requester) (d : PostFormData)
    (pk newPid newCid : Nat) (t : Int) (defPub : Bool) (txt : String) :
    (r.is_authenticated = false →
      PostCreateView.handle posts r d newPid t defPub =
        (.redirectLogin, posts) ∧
      CommentCreateView.handle posts comments r pk txt newCid t =
        (.redirectLogin, comments)) ∧
    (∀ q, q ∈ (PostCreateView.handle posts r d newPid t defPub).2 →
      q ∈ posts ∨ (r.is_authenticated = true ∧ q.author = r.userId)) ∧
    (∀ c, c ∈ (CommentCreateView.handle posts comments r pk txt newCid t).2 →
      c ∈ comments ∨ (r.is_authenticated = true ∧ c.author = r.userId)) := by
  refine ⟨?_, ?_, ?_⟩
  · intro hna
    constructor
    · simp [PostCreateView.handle, hna]
    · simp [CommentCreateView.handle, hna]
  · intro q hq
    cases hauth : r.is_authenticated with
    | false =>
      unfold PostCreateView.handle at hq
      rw [hauth] at hq
      simp at hq
      exact Or.inl hq
    | true =>
      unfold PostCreateView.handle at hq
      rw [hauth] at hq
      simp at hq
      rcases hq with hq | hq
      · exact Or.inl hq
      · subst hq
        exact Or.inr ⟨rfl, rfl⟩
  · intro c hc
    cases hauth : r.is_authenticated with
    | false =>
      unfold CommentCreateView.handle at hc
      rw [hauth] at hc
      simp at hc
      exact Or.inl hc
    | true =>
      unfold CommentCreateView.handle at hc
      rw [hauth] at hc
      cases hfind : posts.find? (fun p => p.id == pk) with
      | none =>
        rw [hfind] at hc
        simp at hc
        exact Or.inl hc
      | some post =>
        rw [hfind] at hc
        simp at hc
        rcases hc with hc | hc
        · exact Or.inl hc
        · subst hc
          exact Or.inr ⟨rfl, rfl⟩

/-- C7 witness: the anonymous requester is redirected to login by both
creation views and nothing is created. -/
theorem C7_creation_requires_authentication_witness :
    PostCreateView.handle [] anon sampleForm 1 0 true =
      (.redirectLogin, []) ∧
    CommentCreateView.handle [] [] anon 20 "hi" 1 0 =
      (.redirectLogin, []) :=
  (C7_creation_requires_authentication [] [] anon sampleForm 20 1 1 0 true
    "hi").1 rfl

/-- C8: a comment may be deleted by its author or by a superuser, but edited
only by its author; an authenticated requester with neither right gets
Http404 and the comment list is unchanged. -/
theorem C8_comment_permissions (comments : List Comment) (pk : Nat)
    (c : Comment) (r : Requester) (txt : String)
    (hfind : comments.find? (fun x => x.id == pk) = some c)
    (hauth : r.is_authenticated = true) :
    (r.userId = c.author ∨ r.is_superuser = true →
      CommentDeleteView.dispatch comments pk r =
        (.page, comments.filter (fun x => !(x.id == pk)))) ∧
    (r.userId ≠ c.author ∧ r.is_superuser = false →
      CommentDeleteView.dispatch comments pk r = (.http404, comments)) ∧
    (r.userId = c.author →
      CommentUpdateView.dispatch comments pk r txt =
        (.page, comments.map (fun x =>
          if x.id == pk then { x with text := txt } else x))) ∧
    (r.userId ≠ c.author →
      CommentUpdateView.dispatch comments pk r txt =
        (.http404, comments)) := by
  refine ⟨?_, ?_, ?_, ?_⟩
  · rintro (h | h)
    · simp [CommentDeleteView.dispatch, hfind, Requester.isUser, hauth,
        h.symm]
    · simp [CommentDeleteView.dispatch, hfind, Requester.isSuper, hauth, h]
  · rintro ⟨h1, h2⟩
    have hu : (c.author == r.userId) = false := by
      simp only [beq_eq_false_iff_ne, ne_eq]
      exact fun he => h1 he.symm
    simp [CommentDeleteView.dispatch, hfind, Requester.isUser,
      Requester.isSuper, hauth, hu, h2]
  · intro h
    simp [CommentUpdateView.dispatch, hfind, Requester.isUser, hauth, h.symm]
  · intro h
    have hu : (c.author == r.userId) = false := by
      simp only [beq_eq_false_iff_ne, ne_eq]
      exact fun he => h he.symm
    simp [CommentUpdateView.dispatch, hfind, Requester.isUser, hauth, hu]

/-- C8 witness: superSam (pk 4) is not the author (pk 3) of sampleComment:
the delete succeeds for the superuser while the edit raises Http404. -/
theorem C8_comment_permissions_witness :
    CommentDeleteView.dispatch [sampleComment] 1 superSam =
      (.page, List.filter (fun x => !(x.id == 1)) [sampleComment]) ∧
    CommentUpdateView.dispatch [sampleComment] 1 superSam "edited" =
      (.http404, [sampleComment]) :=
  have h := C8_comment_permissions [sampleComment] 1 sampleComment superSam
    "edited" (by simp [sampleComment]) rfl
  ⟨h.1 (Or.inr rfl), h.2.2.2 (by decide)⟩

/-- C9: on a published category that contains no visible post, the
function-based view raises Http404 through get_list_or_404 while the
class-based view renders an empty page. -/
theorem C9_category_views_disagree_on_empty (cats : List Category)
    (posts : List Post) (slug : String) (now : Int) (cat : Category)
    (hfind : findCategory cats slug = some cat)
    (hpub : cat.is_published = true)
    (hempty : categoryQueryset cat slug posts now = []) :
    category_posts cats posts slug now = .error () ∧
    CategoryPostsListView.dispatch cats posts slug now = .ok [] := by
  constructor
  · unfold category_posts
    rw [hfind]
    simp [hempty]
  · unfold CategoryPostsListView.dispatch
    rw [hfind]
    simp [hpub, hempty]

/-- C9 witness: the published category catNews with an empty database. -/
theorem C9_category_views_disagree_on_empty_witness :
    category_posts [catNews] [] "news" 0 = .error () ∧
    CategoryPostsListView.dispatch [catNews] [] "news" 0 = .ok [] :=
  C9_category_views_disagree_on_empty [catNews] [] "news" 0 catNews
    (by simp [findCategory, catNews]) rfl (by simp [categoryQueryset])

/-- C10: the post form cannot set author, is_published or created_at — a
form save over an existing post keeps those three fields and overwrites
exactly the five included fields, and a post created through the form gets
the requesting user as author, the model default as is_published and the
auto timestamp as created_at, independent of form input. -/
theorem C10_form_protected_fields (d : PostFormData) (p : Post)
    (posts : List Post) (r : Requester) (newId : Nat) (t : Int)
    (defPub : Bool) (hauth : r.is_authenticated = true) :
    ((applyPostForm d p).author = p.author ∧
     (applyPostForm d p).is_published = p.is_published ∧
     (applyPostForm d p).created_at = p.created_at ∧
     (applyPostForm d p).title = d.title ∧
     (applyPostForm d p).text = d.text ∧
     (applyPostForm d p).pub_date = d.pub_date ∧
     (applyPostForm d p).category = d.category ∧
     (applyPostForm d p).location = d.location) ∧
    (∀ q, q ∈ (PostCreateView.handle posts r d newId t defPub).2 →
      q ∉ posts →
      q.author = r.userId ∧ q.is_published = defPub ∧ q.created_at = t) := by
  refine ⟨⟨rfl, rfl, rfl, rfl, rfl, rfl, rfl, rfl⟩, ?_⟩
  intro q hq hnq
  unfold PostCreateView.handle at hq
  rw [hauth] at hq
  simp at hq
  rcases hq with hq | hq
  · exact absurd hq hnq
  · subst hq
    exact ⟨rfl, rfl, rfl⟩

/-- C10 witness: a form save over draftPost by alice keeps the author. -/
theorem C10_form_protected_fields_witness :
    (applyPostForm sampleForm draftPost).author = draftPost.author :=
  (C10_form_protected_fields sampleForm draftPost [] alice 7 9 true rfl).1.1

end Blogicum
